import Mathlib

/-!
Verification of the muxly unified scheduler (src/scheduler) against its
natural-language specification.

The embedding models the three scheduler components:
  * `ApiScheduler`   — src/scheduler/api.rs  (job registry + execution records)
  * `CronScheduler`  — src/scheduler/cron.rs (timed jobs, tick loop, lifecycle)
  * `WebhookScheduler` — src/scheduler/webhook.rs (path routing + HMAC gate)

Modelling conventions:
  * `DateTime<Utc>` timestamps are `Nat`; `Utc::now()` readings and fresh
    UUIDs are explicit parameters of the operations that draw them.
  * `HashMap<String, V>` is an association list `List (String × V)` with
    `mapGet` / `mapInsert` / `mapUpdate` / `mapRemove` mirroring
    `get` / `insert` / `get_mut` / `remove`-or-`retain`.
  * `anyhow::Result<T>` is `Except String T`.
  * Each lock-protected block of the Rust source becomes one atomic pure
    state transformation; the detached task spawned by `run_job` becomes
    the explicit step functions `task_set_running`, `task_compute_result`,
    `task_finalize`, `task_update_last_execution`, applied in the order the
    task executes them.
  * The external crates (`cron`'s `Schedule`, `hmac`/`sha2`/`hex`) are not
    repository code; they enter the model as function parameters:
    a schedule is `next_after : Nat → Option Nat` (the `upcoming(Utc).next()`
    reading at a given instant) and the lowercase-hex HMAC-SHA256 digest is
    an abstract `hmac : String → String → String` (key, message ↦ hex digest).
-/

/-- Association-list reading of `HashMap::get`: the first binding wins
(keys are unique in every reachable state, since ids are fresh UUIDs). -/
def mapGet {α : Type} (m : List (String × α)) (k : String) : Option α :=
  match m with
  | [] => none
  | (k2, v) :: rest => if k2 = k then some v else mapGet rest k

/-- `HashMap::remove` / `retain(key ≠ k)`. -/
def mapRemove {α : Type} (m : List (String × α)) (k : String) : List (String × α) :=
  m.filter (fun p => p.1 ≠ k)

/-- `HashMap::insert`: replaces any existing binding of the key. -/
def mapInsert {α : Type} (m : List (String × α)) (k : String) (v : α) : List (String × α) :=
  (k, v) :: mapRemove m k

/-- `HashMap::get_mut` followed by an in-place update of the entry, a no-op
when the key is absent (`if let Some(x) = map.get_mut(k) { ... }`). -/
def mapUpdate {α : Type} (m : List (String × α)) (k : String) (f : α → α) : List (String × α) :=
  m.map (fun p => if p.1 = k then (p.1, f p.2) else p)

/-- `serde_json::Value`.  Numbers are modelled as integers; none of the
scheduler code inspects numeric payloads. -/
inductive Json where
  | null
  | bool (b : Bool)
  | num (n : Int)
  | str (s : String)
  | arr (xs : List Json)
  | obj (fields : List (String × Json))
deriving Repr

mutual

/-- `serde_json::Value::to_string()`: compact serialization (string escaping
beyond the quote/backslash pair is elided; no claim inspects escapes). -/
def Json.toString : Json → String
  | .null => "null"
  | .bool true => "true"
  | .bool false => "false"
  | .num n => s!"{n}"
  | .str s => "\"" ++ s ++ "\""
  | .arr xs => "[" ++ Json.arrToString xs ++ "]"
  | .obj fs => "\x7b" ++ Json.objToString fs ++ "\x7d"

def Json.arrToString : List Json → String
  | [] => ""
  | [x] => Json.toString x
  | x :: xs => Json.toString x ++ "," ++ Json.arrToString xs

def Json.objToString : List (String × Json) → String
  | [] => ""
  | [(k, v)] => "\"" ++ k ++ "\":" ++ Json.toString v
  | (k, v) :: fs => "\"" ++ k ++ "\":" ++ Json.toString v ++ "," ++ Json.objToString fs

end

/-- Field lookup on a JSON object (used to inspect HTTP response bodies). -/
def Json.lookup : Json → String → Option Json
  | .obj fields, k => mapGet fields k
  | _, _ => none

/-! ## Job Registry — src/scheduler/api.rs -/

/-- `ApiSchedulerConfig` (api.rs:22-31). -/
structure ApiSchedulerConfig where
  enabled : Bool
  max_concurrent_jobs : Option Nat
  job_timeout_seconds : Option Nat
  max_history_size : Option Nat

/-- `JobStatus` (api.rs:80-89).  The `run_job` draft assigns the strings
"Pending" / "Running" / "Completed" / "Failed" to this field; they name
these variants one-for-one and are modelled as such. -/
inductive JobStatus where
  | pending
  | running
  | completed
  | failed
deriving Repr, DecidableEq, BEq

/-- `JobExecution` (api.rs:59-76). -/
structure JobExecution where
  id : String
  job_id : String
  start_time : Nat
  end_time : Option Nat
  status : JobStatus
  parameters : Option Json
  result : Option Json
  error : Option String

/-- `RegisteredJob` (api.rs:38-55).  The handler is applied to the optional
parameters exactly as at the call site `handler(parameters_clone)`
(api.rs:304).  `last_execution` is the reference to the most recent
execution record, stored by id (the two assignment sites disagree on its
type in the draft; the task at api.rs:336 stores the execution id). -/
structure RegisteredJob where
  id : String
  name : String
  description : Option String
  handler : Option Json → Except String Json
  enabled : Bool
  last_execution : Option String
  created_at : Nat
  updated_at : Nat

/-- `ApiScheduler` (api.rs:132-139): the jobs map, the executions map and
the configuration. -/
structure ApiScheduler where
  jobs : List (String × RegisteredJob)
  executions : List (String × JobExecution)
  config : ApiSchedulerConfig

/-- `ApiScheduler::create_execution` (api.rs:367-377): insert the record and
point the owning job (when present) at it.  The source always returns
`Ok(())`. -/
def ApiScheduler.create_execution (s : ApiScheduler) (job_id : String)
    (execution : JobExecution) : ApiScheduler :=
  { s with
    executions := mapInsert s.executions execution.id execution,
    jobs := mapUpdate s.jobs job_id (fun j => { j with last_execution := some execution.id }) }

/-- Synchronous part of `ApiScheduler::run_job` (api.rs:258-284, 341):
build the `Pending` record, store it via `create_execution`, return `Ok(())`.
No validation of any kind is performed before the record is created. -/
def ApiScheduler.run_job (s : ApiScheduler) (job_id : String) (parameters : Option Json)
    (execution_id : String) (now : Nat) : ApiScheduler × Except String Unit :=
  let execution : JobExecution :=
    { id := execution_id, job_id := job_id, start_time := now, end_time := none,
      status := .pending, parameters := parameters, result := none, error := none }
  (s.create_execution job_id execution, .ok ())

/-- First block of the detached task (api.rs:287-293): mark the execution
`Running` if the record is still present. -/
def ApiScheduler.task_set_running (s : ApiScheduler) (execution_id : String) : ApiScheduler :=
  { s with executions := mapUpdate s.executions execution_id (fun e => { e with status := .running }) }

/-- Second block of the detached task (api.rs:296-311): look the job up and
run its handler; a missing job yields `Err("Job not found")`. -/
def ApiScheduler.task_compute_result (s : ApiScheduler) (job_id : String)
    (parameters : Option Json) : Except String Json :=
  match mapGet s.jobs job_id with
  | some job => job.handler parameters
  | none => .error "Job not found"

/-- Third block of the detached task (api.rs:313-330): set `end_time` and
move the record to `Completed`/`Failed` according to the handler result. -/
def ApiScheduler.task_finalize (s : ApiScheduler) (execution_id : String)
    (result : Except String Json) (end_time : Nat) : ApiScheduler :=
  { s with executions := mapUpdate s.executions execution_id (fun e =>
      match result with
      | .ok r => { e with end_time := some end_time, status := .completed, result := some r }
      | .error msg => { e with end_time := some end_time, status := .failed, error := some msg }) }

/-- Fourth block of the detached task (api.rs:332-338): update the owning
job's last-execution pointer. -/
def ApiScheduler.task_update_last_execution (s : ApiScheduler) (job_id : String)
    (execution_id : String) : ApiScheduler :=
  { s with jobs := mapUpdate s.jobs job_id (fun j => { j with last_execution := some execution_id }) }

/-- `ApiScheduler::unregister_job` (api.rs:187-200): reject when the registry
is disabled, remove the job, `NotFound` when absent.  Executions are not
touched. -/
def ApiScheduler.unregister_job (s : ApiScheduler) (id : String) : Except String ApiScheduler :=
  if !s.config.enabled then .error "API scheduler is disabled"
  else match mapGet s.jobs id with
    | none => .error ("Job not found: " ++ id)
    | some _ => .ok { s with jobs := mapRemove s.jobs id }

/-- `ApiScheduler::get_execution` (api.rs:345-352). -/
def ApiScheduler.get_execution (s : ApiScheduler) (id : String) : Except String JobExecution :=
  match mapGet s.executions id with
  | some e => .ok e
  | none => .error ("Execution not found: " ++ id)

/-- `ApiScheduler::list_execution_history` (api.rs:355-364): ids of every
stored execution whose `job_id` matches; always `Ok`. -/
def ApiScheduler.list_execution_history (s : ApiScheduler) (job_id : String) :
    Except String (List String) :=
  .ok ((s.executions.filter (fun p => p.2.job_id == job_id)).map (fun p => p.2.id))

/-- Executions currently in `Running` state (the quantity the configured
`max_concurrent_jobs` cap would have to consult). -/
def ApiScheduler.running_count (s : ApiScheduler) : Nat :=
  (s.executions.filter (fun p => p.2.status == JobStatus.running)).length

/-- HTTP handler `run_job` (api.rs:496-516): 202 with a success body when the
operation returns `Ok`, 400 with an error body otherwise. -/
def ApiScheduler.http_run_job (s : ApiScheduler) (id : String) (parameters : Option Json)
    (execution_id : String) (now : Nat) : ApiScheduler × Nat × Json :=
  match s.run_job id parameters execution_id now with
  | (s2, .ok _) =>
    (s2, 202, Json.obj [("status", .str "success"), ("message", .str ("Job " ++ id ++ " started"))])
  | (s2, .error e) => (s2, 400, Json.obj [("error", .str e)])

/-- Spec §8 invariants 1–2 for a single execution record:
terminal status iff `end_time` set; `Completed` has a result and no error;
`Failed` has an error. -/
def ExecInv (e : JobExecution) : Prop :=
  (e.end_time ≠ none ↔ (e.status = .completed ∨ e.status = .failed)) ∧
  (e.status = .completed → e.result ≠ none ∧ e.error = none) ∧
  (e.status = .failed → e.error ≠ none)

/-! ## Cron Engine — src/scheduler/cron.rs -/

/-- `ScheduledJob` (cron.rs:30-45).  The parsed `cron::Schedule` (external
crate) is modelled by `next_after`, the value of
`schedule.upcoming(Utc).next()` when "now" reads the given instant: the
least schedule time strictly after that instant, or `none` when the
schedule has no upcoming fire.  The parameterless handler is modelled by
its outcome. -/
structure ScheduledJob where
  id : String
  next_after : Nat → Option Nat
  handler : Unit → Except String Unit
  next_run : Option Nat
  last_run : Option Nat
  enabled : Bool
  catch_up : Bool

/-- `ScheduledJob::run` (cron.rs:85-112): skip when disabled; on handler
success set `last_run` and recompute `next_run` (`update_next_run`,
cron.rs:78-82); on handler error return the error with `last_run` and
`next_run` untouched. -/
def ScheduledJob.run (j : ScheduledJob) (now : Nat) : ScheduledJob × Except String Unit :=
  if !j.enabled then (j, .ok ())
  else
    match j.handler () with
    | .ok _ => ({ j with last_run := some now, next_run := j.next_after now }, .ok ())
    | .error e => (j, .error e)

/-- One job's treatment by a tick-loop iteration (cron.rs:184-198): call
`run` when `next_run` is set and has elapsed, ignoring its result;
otherwise leave the job alone. -/
def tick_job (j : ScheduledJob) (now : Nat) : ScheduledJob :=
  match j.next_run with
  | some next => if next ≤ now then (j.run now).1 else j
  | none => j

/-- `CronScheduler` lifecycle state (cron.rs:116-123): the job list, the
stored `JoinHandle` (modelled by an opaque task id) and the running flag. -/
structure CronScheduler where
  jobs : List ScheduledJob
  task_handle : Option Nat
  running : Bool

/-- `CronScheduler::start` (cron.rs:160-213): return `Ok` at once when the
running flag is set; otherwise set the flag, spawn the tick loop and store
its handle.  The returned `Bool` records whether a loop task was spawned
(the `tokio::spawn` at cron.rs:175). -/
def CronScheduler.start (s : CronScheduler) (task_id : Nat) :
    CronScheduler × Bool × Except String Unit :=
  if s.running then (s, false, .ok ())
  else ({ s with running := true, task_handle := some task_id }, true, .ok ())

/-- `CronScheduler::stop` (cron.rs:216-243): return `Ok` at once when not
running; otherwise clear the flag, take the handle and await it under a
5-second timeout (`join_times_out` tells whether that timeout elapsed,
which the source maps to an error). -/
def CronScheduler.stop (s : CronScheduler) (join_times_out : Bool) :
    CronScheduler × Except String Unit :=
  if !s.running then (s, .ok ())
  else
    let s2 : CronScheduler := { s with running := false }
    match s2.task_handle with
    | some _ =>
      if join_times_out then
        ({ s2 with task_handle := none }, .error "Scheduler did not stop within timeout")
      else ({ s2 with task_handle := none }, .ok ())
    | none => (s2, .ok ())

/-- `CronScheduler::set_job_enabled` (cron.rs:274-294): find the job; when
present, log and return `Ok(())` WITHOUT modifying it (the source comments
at cron.rs:281-283 that it cannot mutate the job through the shared
reference); when absent, `NotFound`. -/
def CronScheduler.set_job_enabled (s : CronScheduler) (id : String) (enabled : Bool) :
    CronScheduler × Except String Unit :=
  match s.jobs.find? (fun j => j.id == id) with
  | some _ => (s, .ok ())
  | none => (s, .error ("Job not found: " ++ id))

/-! ## Webhook Dispatcher — src/scheduler/webhook.rs -/

/-- `RegisteredWebhook` (webhook.rs:29-40). -/
structure RegisteredWebhook where
  id : String
  path : String
  handler : Json → Except String Json
  secret : Option String
  enabled : Bool

/-- `WebhookRequest` (webhook.rs:55-60). -/
structure WebhookRequest where
  payload : Json
  signature : Option String

/-- `WebhookResponse` (webhook.rs:44-51). -/
structure WebhookResponse where
  status : String
  message : String
  data : Option Json

/-- `WebhookScheduler` state (webhook.rs:63-66). -/
structure WebhookScheduler where
  webhooks : List (String × RegisteredWebhook)

/-- `validate_signature` (webhook.rs:192-218): serialize the payload with
`to_string`, compute the lowercase-hex HMAC-SHA256 digest keyed by the
secret (the `hmac`/`sha2`/`hex` crates, abstracted as `hmac`), compare for
string equality with the presented signature. -/
def validate_signature (hmac : String → String → String) (signature : String)
    (secret : String) (payload : Json) : Bool :=
  let payload_str := payload.toString
  let hex_result := hmac secret payload_str
  signature == hex_result

/-- Result of `WebhookScheduler::handle_webhook_call` together with the
observable fact of whether control reached the handler call at
webhook.rs:161. -/
structure WebhookCallOutcome where
  invoked : Bool
  response : Except String WebhookResponse

/-- `WebhookScheduler::handle_webhook_call` (webhook.rs:136-172): find the
first enabled webhook on the path (`NotFound` otherwise); when a secret is
configured, require a signature and validate it (the early `return Err`s at
webhook.rs:152 and webhook.rs:155 become the `sig_check` gate); then call
the handler and wrap its outcome. -/
def WebhookScheduler.handle_webhook_call (hmac : String → String → String)
    (s : WebhookScheduler) (path : String) (request : WebhookRequest) : WebhookCallOutcome :=
  match s.webhooks.find? (fun p => p.2.path == path && p.2.enabled) with
  | none =>
    { invoked := false,
      response := .error ("Webhook for path " ++ path ++ " not found or disabled") }
  | some (_, webhook) =>
    let sig_check : Except String Unit :=
      match webhook.secret with
      | some secret =>
        match request.signature with
        | some signature =>
          if !validate_signature hmac signature secret request.payload then
            .error "Invalid webhook signature"
          else .ok ()
        | none => .error "Webhook signature required but not provided"
      | none => .ok ()
    match sig_check with
    | .error e => { invoked := false, response := .error e }
    | .ok _ =>
      match webhook.handler request.payload with
      | .ok result =>
        { invoked := true,
          response := .ok { status := "success",
                            message := "Webhook executed successfully",
                            data := some result } }
      | .error e => { invoked := true, response := .error ("Webhook execution failed: " ++ e) }

/-- HTTP handler `handle_webhook` (webhook.rs:176-189): a plain
`Json<WebhookResponse>` is returned on BOTH branches, so axum serves every
outcome — success, dispatch failure, handler failure — with HTTP status
200; failures differ only in the body. -/
def handle_webhook (hmac : String → String → String) (s : WebhookScheduler)
    (path : String) (request : WebhookRequest) : Nat × WebhookResponse :=
  match (s.handle_webhook_call hmac path request).response with
  | .ok response => (200, response)
  | .error e => (200, { status := "error", message := "Webhook error: " ++ e, data := none })

/-! ## Concrete fixtures for counterexamples and witnesses -/

/-- Decidable success test for `anyhow::Result` values. -/
def exceptOk {ε α : Type} : Except ε α → Bool
  | .ok _ => true
  | .error _ => false

/-- A job handler that returns JSON null, used by the concrete states. -/
def trivial_handler : Option Json → Except String Json :=
  fun _ => .ok .null

/-- A registry configuration with the scheduler enabled and no caps. -/
def cxConfigOn : ApiSchedulerConfig :=
  { enabled := true, max_concurrent_jobs := none,
    job_timeout_seconds := none, max_history_size := none }

/-- A disabled, empty registry (for the C1 counterexample). -/
def cxC1 : ApiScheduler :=
  { jobs := [], executions := [],
    config := { enabled := false, max_concurrent_jobs := none,
                job_timeout_seconds := none, max_history_size := none } }

/-- An enabled registered job with id "j". -/
def cxJob : RegisteredJob :=
  { id := "j", name := "demo", description := none, handler := trivial_handler,
    enabled := true, last_execution := none, created_at := 0, updated_at := 0 }

/-- A completed execution record "e1" owned by job "j". -/
def cxExec1 : JobExecution :=
  { id := "e1", job_id := "j", start_time := 1, end_time := some 2,
    status := .completed, parameters := none, result := some .null, error := none }

/-- Registry holding job "j" and its finished execution "e1" (for C3). -/
def cxC3 : ApiScheduler :=
  { jobs := [("j", cxJob)], executions := [("e1", cxExec1)], config := cxConfigOn }

/-- The registry state `unregister_job` produces from `cxC3`. -/
def cxC3After : ApiScheduler :=
  { cxC3 with jobs := mapRemove cxC3.jobs "j" }

/-- Registry holding only the enabled job "j" (for C7). -/
def cxC7 : ApiScheduler :=
  { jobs := [("j", cxJob)], executions := [], config := cxConfigOn }

/-- A running execution record owned by job "j". -/
def cxRunningExec (eid : String) : JobExecution :=
  { id := eid, job_id := "j", start_time := 1, end_time := none,
    status := .running, parameters := none, result := none, error := none }

/-- Registry with `max_concurrent_jobs = some 1` and two `Running`
executions (for C8: the cap is exceeded and still nothing is rejected). -/
def cxC8 : ApiScheduler :=
  { jobs := [("j", cxJob)],
    executions := [("r1", cxRunningExec "r1"), ("r2", cxRunningExec "r2")],
    config := { enabled := true, max_concurrent_jobs := some 1,
                job_timeout_seconds := none, max_history_size := none } }

/-- A disabled cron job that is due (`next_run = some 5`). -/
def cxCronDisabled : ScheduledJob :=
  { id := "c", next_after := fun t => some (t + 1), handler := fun _ => .ok (),
    next_run := some 5, last_run := none, enabled := false, catch_up := false }

/-- An enabled cron job that is due and whose handler fails. -/
def cxCronFailing : ScheduledJob :=
  { id := "f", next_after := fun t => some (t + 1), handler := fun _ => .error "boom",
    next_run := some 5, last_run := none, enabled := true, catch_up := false }

/-- An enabled cron job that is due and whose handler succeeds. -/
def cxCronOk : ScheduledJob :=
  { id := "k", next_after := fun t => some (t + 1), handler := fun _ => .ok (),
    next_run := some 5, last_run := none, enabled := true, catch_up := false }

/-- A cron engine holding one enabled job "k" (for C9). -/
def cxC9 : CronScheduler :=
  { jobs := [cxCronOk], task_handle := none, running := false }

/-- A cron engine in the running state (for the C10 witness states). -/
def cxC10Running : CronScheduler :=
  { jobs := [], task_handle := some 1, running := true }

/-- A concrete stand-in for the hex HMAC-SHA256 digest function. -/
def cxHmac : String → String → String :=
  fun key msg => key ++ "|" ++ msg

/-- A dispatcher with no registrations (for the C5 counterexample). -/
def cxWSEmpty : WebhookScheduler :=
  { webhooks := [] }

/-- Webhook on path "pay" protected by secret "s3" whose handler echoes
the payload. -/
def cxW6 : RegisteredWebhook :=
  { id := "w1", path := "pay", handler := fun p => .ok p,
    secret := some "s3", enabled := true }

/-- Dispatcher holding only `cxW6` (for the C6 witness). -/
def cxC6 : WebhookScheduler :=
  { webhooks := [("w1", cxW6)] }

/-- Request to `cxW6` carrying the digest `cxHmac` assigns to its payload. -/
def cxReq6 : WebhookRequest :=
  { payload := .str "x", signature := some (cxHmac "s3" (Json.str "x").toString) }

/-- Unsigned request with a null payload. -/
def cxReqPlain : WebhookRequest :=
  { payload := .null, signature := none }

/-- The three registry states one execution passes through: after `run_job`
stores the `Pending` record (api.rs:277), after the detached task marks it
`Running` (api.rs:287-293), and after the task finalizes it with the
handler result and updates the job's last-execution pointer
(api.rs:313-338).  The steps are composed in the order the spawned task
performs them. -/
def run_job_trace (s0 : ApiScheduler) (job_id : String) (params : Option Json)
    (exec_id : String) (t0 t1 : Nat) : ApiScheduler × ApiScheduler × ApiScheduler :=
  let s1 := (s0.run_job job_id params exec_id t0).1
  let s2 := s1.task_set_running exec_id
  let r := s2.task_compute_result job_id params
  let s3 := (s2.task_finalize exec_id r t1).task_update_last_execution job_id exec_id
  (s1, s2, s3)

/-! ## Helper lemmas about the map model -/

theorem mapGet_mapInsert {α : Type} (m : List (String × α)) (k : String) (v : α) :
    mapGet (mapInsert m k v) k = some v := by
  simp [mapInsert, mapGet]

theorem mapGet_mapRemove {α : Type} (m : List (String × α)) (k : String) :
    mapGet (mapRemove m k) k = none := by
  induction m with
  | nil => rfl
  | cons p rest ih =>
    obtain ⟨k2, v⟩ := p
    by_cases h : k2 = k
    · simpa [mapRemove, h] using ih
    · simpa [mapRemove, mapGet, h] using ih

theorem mapGet_cons {α : Type} (k2 : String) (v : α) (rest : List (String × α)) (k : String) :
    mapGet ((k2, v) :: rest) k = if k2 = k then some v else mapGet rest k := rfl

theorem mapUpdate_cons {α : Type} (k2 : String) (v : α) (rest : List (String × α))
    (k : String) (f : α → α) :
    mapUpdate ((k2, v) :: rest) k f =
      (if k2 = k then (k2, f v) else (k2, v)) :: mapUpdate rest k f := rfl

theorem mapGet_mapUpdate {α : Type} (m : List (String × α)) (k : String) (f : α → α) :
    mapGet (mapUpdate m k f) k = (mapGet m k).map f := by
  induction m with
  | nil => rfl
  | cons p rest ih =>
    obtain ⟨k2, v⟩ := p
    by_cases h : k2 = k
    · simp [mapUpdate_cons, mapGet_cons, h]
    · simp [mapUpdate_cons, mapGet_cons, h, ih]

/-! ## Claim theorems -/

/-- Claim C1 (corrected): `run_job` performs no validation at all.  For every
registry state — disabled registry, unknown job id, disabled job alike — the
call returns `Ok(())` and a fresh `Pending` execution record is created and
stored before the detached task is scheduled. -/
theorem C1_run_job_no_validation (s : ApiScheduler) (job_id : String) (params : Option Json)
    (exec_id : String) (now : Nat) :
    (s.run_job job_id params exec_id now).2 = .ok () ∧
    mapGet (s.run_job job_id params exec_id now).1.executions exec_id =
      some { id := exec_id, job_id := job_id, start_time := now, end_time := none,
             status := .pending, parameters := params, result := none, error := none } := by
  constructor
  · rfl
  · simp [ApiScheduler.run_job, ApiScheduler.create_execution, mapGet_mapInsert]

/-- Claim C1 counterexample: on a registry whose config `enabled` flag is
false and which holds no job, `run_job` neither fails with `Disabled` nor
with `NotFound`: it returns `Ok(())` and a `Pending` execution record for
the unknown job exists afterwards, refuting the claim that the three
validations precede record creation. -/
theorem C1_counterexample :
    cxC1.config.enabled = false ∧
    mapGet cxC1.jobs "ghost" = none ∧
    (cxC1.run_job "ghost" none "e1" 0).2 = .ok () ∧
    mapGet (cxC1.run_job "ghost" none "e1" 0).1.executions "e1" =
      some { id := "e1", job_id := "ghost", start_time := 0, end_time := none,
             status := .pending, parameters := none, result := none, error := none } :=
  ⟨rfl, rfl, rfl, rfl⟩

/-- Claim C2 (confirmed): along the three registry states an execution
passes through — `Pending` when `run_job` stores it, `Running` after the
detached task's first update, terminal after the task finalizes it — the
record invariants hold at every step: `end_time` is set exactly at the
terminal stage, `Completed` carries a result and no error, `Failed`
carries an error, and the status follows the path
Pending → Running → (Completed | Failed).  The task performs no update
after finalization (its last block touches only the job's last-execution
pointer), so the terminal state is never left. -/
theorem C2_execution_lifecycle (s0 : ApiScheduler) (job_id : String) (params : Option Json)
    (exec_id : String) (t0 t1 : Nat) :
    ∃ e1 e2 e3 : JobExecution,
      mapGet (run_job_trace s0 job_id params exec_id t0 t1).1.executions exec_id = some e1 ∧
      e1.status = .pending ∧ e1.end_time = none ∧ ExecInv e1 ∧
      mapGet (run_job_trace s0 job_id params exec_id t0 t1).2.1.executions exec_id = some e2 ∧
      e2.status = .running ∧ e2.end_time = none ∧ ExecInv e2 ∧
      mapGet (run_job_trace s0 job_id params exec_id t0 t1).2.2.executions exec_id = some e3 ∧
      (e3.status = .completed ∨ e3.status = .failed) ∧ e3.end_time = some t1 ∧ ExecInv e3 ∧
      (match ((run_job_trace s0 job_id params exec_id t0 t1).2.1).task_compute_result
          job_id params with
       | .ok v => e3.status = .completed ∧ e3.result = some v ∧ e3.error = none
       | .error msg => e3.status = .failed ∧ e3.error = some msg ∧ e3.result = none) := by
  dsimp only [run_job_trace]
  cases hr : ApiScheduler.task_compute_result
      (ApiScheduler.task_set_running (ApiScheduler.run_job s0 job_id params exec_id t0).1 exec_id)
      job_id params with
  | ok v =>
    refine ⟨⟨exec_id, job_id, t0, none, .pending, params, none, none⟩,
            ⟨exec_id, job_id, t0, none, .running, params, none, none⟩,
            ⟨exec_id, job_id, t0, some t1, .completed, params, some v, none⟩,
            ?_, rfl, rfl, ?_, ?_, rfl, rfl, ?_, ?_, .inl rfl, rfl, ?_, ⟨rfl, rfl, rfl⟩⟩
    · simp [ApiScheduler.run_job, ApiScheduler.create_execution, mapGet_mapInsert]
    · simp [ExecInv]
    · simp [ApiScheduler.run_job, ApiScheduler.create_execution, ApiScheduler.task_set_running,
            mapGet_mapUpdate, mapGet_mapInsert]
    · simp [ExecInv]
    · simp [ApiScheduler.run_job, ApiScheduler.create_execution, ApiScheduler.task_set_running,
            ApiScheduler.task_finalize, ApiScheduler.task_update_last_execution,
            mapGet_mapUpdate, mapGet_mapInsert]
    · simp [ExecInv]
  | error msg =>
    refine ⟨⟨exec_id, job_id, t0, none, .pending, params, none, none⟩,
            ⟨exec_id, job_id, t0, none, .running, params, none, none⟩,
            ⟨exec_id, job_id, t0, some t1, .failed, params, none, some msg⟩,
            ?_, rfl, rfl, ?_, ?_, rfl, rfl, ?_, ?_, .inr rfl, rfl, ?_, ⟨rfl, rfl, rfl⟩⟩
    · simp [ApiScheduler.run_job, ApiScheduler.create_execution, mapGet_mapInsert]
    · simp [ExecInv]
    · simp [ApiScheduler.run_job, ApiScheduler.create_execution, ApiScheduler.task_set_running,
            mapGet_mapUpdate, mapGet_mapInsert]
    · simp [ExecInv]
    · simp [ApiScheduler.run_job, ApiScheduler.create_execution, ApiScheduler.task_set_running,
            ApiScheduler.task_finalize, ApiScheduler.task_update_last_execution,
            mapGet_mapUpdate, mapGet_mapInsert]
    · simp [ExecInv]

/-- Claim C3 (corrected): a successful `unregister_job` removes the job from
the jobs map but leaves the executions map untouched, so the job's
execution history is NOT purged: `list_execution_history` answers exactly
as before the unregistration. -/
theorem C3_unregister_keeps_executions (s s2 : ApiScheduler) (id : String)
    (h : s.unregister_job id = .ok s2) :
    s2.executions = s.executions ∧ mapGet s2.jobs id = none ∧
    (∀ jid, s2.list_execution_history jid = s.list_execution_history jid) := by
  unfold ApiScheduler.unregister_job at h
  split at h
  · exact absurd h (by simp)
  · split at h
    · exact absurd h (by simp)
    · simp only [Except.ok.injEq] at h
      subst h
      exact ⟨rfl, mapGet_mapRemove s.jobs id, fun jid => rfl⟩

/-- Witness for C3 at the concrete registry `cxC3`. -/
theorem C3_witness :
    cxC3After.executions = cxC3.executions ∧ mapGet cxC3After.jobs "j" = none ∧
    (∀ jid, cxC3After.list_execution_history jid = cxC3.list_execution_history jid) :=
  C3_unregister_keeps_executions cxC3 cxC3After "j" rfl

/-- Claim C3 counterexample: after `unregister_job` succeeds on job "j",
`list_execution_history "j"` still yields the non-empty list `["e1"]` and
`get_execution "e1"` still succeeds, refuting the claimed purge. -/
theorem C3_counterexample :
    cxC3.unregister_job "j" = .ok cxC3After ∧
    cxC3After.list_execution_history "j" = .ok ["e1"] ∧
    ("e1" :: List.nil ≠ ([] : List String)) ∧
    cxC3After.get_execution "e1" = .ok cxExec1 :=
  ⟨rfl, rfl, by simp, rfl⟩

/-- Claim C4 (corrected): processing a due job at a tick advances `next_run`
ONLY when the job is enabled and its handler succeeds.  A handler error
returns early from `ScheduledJob::run` without touching `next_run`, and a
disabled job is skipped without touching `next_run`, so in both cases the
job stays due and is re-examined on every subsequent tick instead of being
advanced past `now`. -/
theorem C4_next_run_advances_only_on_success (j : ScheduledJob) (now : Nat) :
    (tick_job j now).next_run =
      match j.next_run with
      | some next =>
        if next ≤ now then
          if j.enabled then
            match j.handler () with
            | .ok _ => j.next_after now
            | .error _ => j.next_run
          else j.next_run
        else j.next_run
      | none => j.next_run := by
  cases hn : j.next_run with
  | none => simp [tick_job, hn]
  | some next =>
    by_cases hd : next ≤ now
    · cases he : j.enabled with
      | false => simp [tick_job, ScheduledJob.run, hn, hd, he]
      | true =>
        cases hh : j.handler () with
        | ok u => simp [tick_job, ScheduledJob.run, hn, hd, he, hh]
        | error e => simp [tick_job, ScheduledJob.run, hn, hd, he, hh]
    · simp [tick_job, hn, hd]

/-- Claim C4 counterexample: a disabled job due at tick time 10 keeps
`next_run = some 5`, which is not a schedule time past `now`; likewise an
enabled due job whose handler errors keeps `next_run = some 5`.  This
refutes the claim that `next_run` is advanced regardless of handler
failure or the enabled flag. -/
theorem C4_counterexample :
    cxCronDisabled.enabled = false ∧ cxCronDisabled.next_run = some 5 ∧
    (tick_job cxCronDisabled 10).next_run = some 5 ∧ ¬(10 < 5) ∧
    cxCronFailing.handler () = .error "boom" ∧
    (tick_job cxCronFailing 10).next_run = some 5 :=
  ⟨rfl, rfl, rfl, by decide, rfl, rfl⟩

/-- Any `Ok` response out of `handle_webhook_call` was built at the single
success site (webhook.rs:162-166) and carries status "success". -/
theorem handle_call_ok_status (hmac : String → String → String) (s : WebhookScheduler)
    (path : String) (request : WebhookRequest) (r : WebhookResponse)
    (h : (s.handle_webhook_call hmac path request).response = .ok r) :
    r.status = "success" := by
  unfold WebhookScheduler.handle_webhook_call at h
  split at h
  · simp at h
  · dsimp only at h
    split at h
    · simp at h
    · split at h
      · simp only [Except.ok.injEq] at h
        subst h
        rfl
      · simp at h

/-- Claim C5 (corrected): the HTTP webhook handler wraps every outcome in a
plain 200 response.  Dispatcher-level failures (unknown or disabled path,
missing or invalid signature) are NOT distinguished by a 4xx status: they
are returned, exactly like handler errors, as HTTP 200 with a body whose
status field is "error"; only a successful handler invocation yields a
body with status "success". -/
theorem C5_all_responses_http_200 (hmac : String → String → String) (s : WebhookScheduler)
    (path : String) (request : WebhookRequest) :
    (handle_webhook hmac s path request).1 = 200 ∧
    ((handle_webhook hmac s path request).2.status = "success" ↔
      ∃ r, (s.handle_webhook_call hmac path request).response = .ok r) ∧
    ((handle_webhook hmac s path request).2.status = "error" ↔
      ∃ e, (s.handle_webhook_call hmac path request).response = .error e) := by
  unfold handle_webhook
  cases hres : (s.handle_webhook_call hmac path request).response with
  | ok r =>
    have hs := handle_call_ok_status hmac s path request r hres
    refine ⟨rfl, ?_, ?_⟩
    · simp [hs]
    · constructor
      · intro hcontra
        rw [hs] at hcontra
        exact absurd hcontra (by decide)
      · rintro ⟨e, he⟩
        exact absurd he (by simp)
  | error e =>
    refine ⟨rfl, ?_, ?_⟩
    · dsimp only
      constructor
      · intro hcontra
        exact absurd hcontra (by decide)
      · rintro ⟨r, hok⟩
        exact absurd hok (by simp)
    · dsimp only
      simp

/-- Claim C5 counterexample: with no webhook registered at path "x", the
dispatcher-level `NotFound` outcome is served with HTTP status 200 — not a
4xx — refuting the claimed status-code distinction. -/
theorem C5_counterexample :
    (cxWSEmpty.handle_webhook_call cxHmac "x" cxReqPlain).response =
      .error "Webhook for path x not found or disabled" ∧
    (handle_webhook cxHmac cxWSEmpty "x" cxReqPlain).1 = 200 ∧
    ¬(400 ≤ (handle_webhook cxHmac cxWSEmpty "x" cxReqPlain).1 ∧
      (handle_webhook cxHmac cxWSEmpty "x" cxReqPlain).1 < 500) :=
  ⟨rfl, rfl, by decide⟩

/-- Claim C6 (confirmed): for a request routed to a registered enabled
webhook, the handler is invoked iff the signature gate passes.  With a
configured secret the gate passes exactly when the request carries a
signature string equal to the digest `hmac secret payload.toString` — the
lowercase-hex HMAC-SHA256 of the serialized payload JSON keyed by the
secret, as computed by `validate_signature` — and with no secret the
handler is invoked whatever the signature field holds, absent included. -/
theorem C6_signature_gate (hmac : String → String → String) (s : WebhookScheduler)
    (path : String) (request : WebhookRequest) (entry : String × RegisteredWebhook)
    (hfind : s.webhooks.find? (fun p => p.2.path == path && p.2.enabled) = some entry) :
    (match entry.2.secret with
     | some secret =>
       ((s.handle_webhook_call hmac path request).invoked = true ↔
         request.signature = some (hmac secret request.payload.toString))
     | none => (s.handle_webhook_call hmac path request).invoked = true) := by
  obtain ⟨wid, webhook⟩ := entry
  unfold WebhookScheduler.handle_webhook_call
  rw [hfind]
  dsimp only
  cases hsec : webhook.secret with
  | none =>
    cases hh : webhook.handler request.payload <;> simp [hh]
  | some secret =>
    cases hsig : request.signature with
    | none => simp
    | some signature =>
      dsimp only
      cases hvb : validate_signature hmac signature secret request.payload with
      | true =>
        have hsigeq : signature = hmac secret request.payload.toString := by
          have hvb2 := hvb
          unfold validate_signature at hvb2
          exact eq_of_beq hvb2
        cases hh : webhook.handler request.payload <;> simp [hh, hsigeq]
      | false =>
        have hne : signature ≠ hmac secret request.payload.toString := by
          have hvb2 := hvb
          unfold validate_signature at hvb2
          exact ne_of_beq_false hvb2
        simp [hne]

/-- Witness for C6: on the dispatcher holding webhook "pay" with secret
"s3", the request signed with the digest of its payload reaches the
handler. -/
theorem C6_witness :
    (cxC6.handle_webhook_call cxHmac "pay" cxReq6).invoked = true := by
  have h := C6_signature_gate cxHmac cxC6 "pay" cxReq6 ("w1", cxW6) rfl
  exact h.mpr rfl

/-- Claim C7 (corrected): `run_job` returns `Ok(())` — the generated
execution id is never returned to the caller — and the HTTP handler for
`POST /jobs/:id/run` answers 202 with the body
`{status: "success", message: "Job <id> started"}`, which carries no
"execution_id" key at all. -/
theorem C7_run_endpoint_no_execution_id (s : ApiScheduler) (id : String) (params : Option Json)
    (execution_id : String) (now : Nat) :
    (s.run_job id params execution_id now).2 = .ok () ∧
    (s.http_run_job id params execution_id now).2.1 = 202 ∧
    (s.http_run_job id params execution_id now).2.2 =
      Json.obj [("status", .str "success"), ("message", .str ("Job " ++ id ++ " started"))] ∧
    Json.lookup (s.http_run_job id params execution_id now).2.2 "execution_id" = none :=
  ⟨rfl, rfl, rfl, rfl⟩

/-- Claim C7 counterexample: even for a fully valid call — registry enabled,
job "j" present and enabled — the 202 body contains no "execution_id" key,
refuting the claimed response shape. -/
theorem C7_counterexample :
    mapGet cxC7.jobs "j" = some cxJob ∧ cxJob.enabled = true ∧
    cxC7.config.enabled = true ∧
    (cxC7.run_job "j" none "e1" 1).2 = .ok () ∧
    (cxC7.http_run_job "j" none "e1" 1).2.1 = 202 ∧
    Json.lookup (cxC7.http_run_job "j" none "e1" 1).2.2 "execution_id" = none ∧
    (cxC7.http_run_job "j" none "e1" 1).2.2 =
      Json.obj [("status", .str "success"), ("message", .str "Job j started")] :=
  ⟨rfl, rfl, rfl, rfl, rfl, rfl, rfl⟩

/-- Claim C8 (corrected): the configured `max_concurrent_jobs` cap is never
consulted: even when the cap is set and at least that many executions are
in `Running` state, `run_job` succeeds and stores a new record.  In
particular `run_job` never fails with `Overloaded`, cap or no cap. -/
theorem C8_cap_not_enforced (s : ApiScheduler) (n : Nat)
    (hcap : s.config.max_concurrent_jobs = some n)
    (hload : n ≤ s.running_count)
    (job_id : String) (params : Option Json) (execution_id : String) (now : Nat) :
    (s.run_job job_id params execution_id now).2 = .ok () ∧
    (mapGet (s.run_job job_id params execution_id now).1.executions execution_id).isSome
      = true := by
  refine ⟨rfl, ?_⟩
  simp [ApiScheduler.run_job, ApiScheduler.create_execution, mapGet_mapInsert]

/-- Witness for C8 at the registry `cxC8` (cap 1, two running executions). -/
theorem C8_witness :
    (cxC8.run_job "j" none "e3" 5).2 = .ok () ∧
    (mapGet (cxC8.run_job "j" none "e3" 5).1.executions "e3").isSome = true :=
  C8_cap_not_enforced cxC8 1 rfl (by decide) "j" none "e3" 5

/-- Claim C8 counterexample: with `max_concurrent_jobs = some 1` and two
executions already `Running`, `run_job` neither fails with `Overloaded`
nor refrains from creating a record: it returns `Ok` and the executions
map grows to three entries. -/
theorem C8_counterexample :
    cxC8.config.max_concurrent_jobs = some 1 ∧
    cxC8.running_count = 2 ∧
    (cxC8.run_job "j" none "e3" 5).2 = .ok () ∧
    (cxC8.run_job "j" none "e3" 5).1.executions.length = 3 :=
  ⟨rfl, rfl, rfl, rfl⟩

/-- Claim C9 (code bug): `CronScheduler::set_job_enabled` finds the job and
returns `Ok(())` but does not modify it — the source itself comments
(cron.rs:281-283) that it cannot mutate the job through the shared
reference and a real implementation would.  Disabling the present job "k"
leaves the whole engine state unchanged with the flag still true, against
the claim that the flag afterwards equals the argument; the `NotFound`
half for an absent id does hold. -/
theorem C9_set_enabled_is_noop :
    cxC9.set_job_enabled "k" false = (cxC9, .ok ()) ∧
    ((cxC9.set_job_enabled "k" false).1.jobs.find? (fun j => j.id == "k")).map
      (fun j => j.enabled) = some true ∧
    (cxC9.set_job_enabled "ghost" false).2 = .error "Job not found: ghost" :=
  ⟨rfl, rfl, rfl⟩

/-- `start` leaves the engine running whether or not it already was. -/
theorem running_after_start (s : CronScheduler) (tid : Nat) :
    (s.start tid).1.running = true := by
  cases hr : s.running <;> simp [CronScheduler.start, hr]

/-- `start` on a running engine returns `Ok` at once, spawns no loop task
and leaves the state untouched (cron.rs:162-165). -/
theorem start_of_running (s : CronScheduler) (tid : Nat) (h : s.running = true) :
    s.start tid = (s, false, .ok ()) := by
  simp [CronScheduler.start, h]

/-- `stop` leaves the engine stopped whether or not it was running. -/
theorem not_running_after_stop (s : CronScheduler) (b : Bool) :
    (s.stop b).1.running = false := by
  cases hr : s.running
  · simp [CronScheduler.stop, hr]
  · unfold CronScheduler.stop
    simp only [hr, Bool.not_true, Bool.false_eq_true, if_false]
    cases ht : s.task_handle with
    | none => simp [ht]
    | some x => cases b <;> simp [ht]

/-- `stop` on a stopped engine returns `Ok` at once and leaves the state
untouched (cron.rs:218-221). -/
theorem stop_of_stopped (s : CronScheduler) (b : Bool) (h : s.running = false) :
    s.stop b = (s, .ok ()) := by
  simp [CronScheduler.stop, h]

/-- Claim C10 (confirmed): cron engine start and stop are idempotent.  A
second `start` observes the running flag set by the first, returns `Ok`,
spawns no second tick loop (the `Bool` component is `false`) and changes
nothing; a second `stop` observes the flag already cleared by the first
and returns `Ok` changing nothing. -/
theorem C10_start_stop_idempotent (s : CronScheduler) (tid tid2 : Nat) (b b2 : Bool) :
    (s.start tid).1.start tid2 = ((s.start tid).1, false, .ok ()) ∧
    ((s.stop b).1).stop b2 = ((s.stop b).1, .ok ()) :=
  ⟨start_of_running (s.start tid).1 tid2 (running_after_start s tid),
   stop_of_stopped (s.stop b).1 b2 (not_running_after_stop s b)⟩
